import Mathlib

/-!
Verification of the AI Content Generation Gateway of the marketplace backend
(`backend/server.py`) against its natural-language specification.

The Python source is shallowly embedded: strings are Lean `String`s, Python
`str.strip` / `str.startswith` / `str.endswith` / slicing are modelled by
explicit `List Char` operations, `json.loads` is modelled by a recursive
descent JSON parser (`Json.parse`), database lookups and the chat backend are
explicit functional parameters, and a Python exception escaping a handler is
an `Except.error` value.  Each FastAPI endpoint of the source becomes a total
Lean function returning its response envelope together with the list of
prompts sent to the chat backend (so that backend call counts are visible).
-/

/-! ## Python string primitives

Whitespace is modelled by the four common characters space, tab, newline and
carriage return: this is the exact whitespace set skipped by Python's `json`
module, and the restriction of `str.strip` to those characters. -/

/-- Whitespace characters recognised by the model (space, tab, LF, CR). -/
def wsChar (c : Char) : Bool := c = ' ' || c = '\t' || c = '\n' || c = '\r'

/-- Drop leading whitespace, as the `json` module does between tokens. -/
def skipW (l : List Char) : List Char := l.dropWhile wsChar

/-- Drop trailing whitespace. -/
def dropRightWhileW (l : List Char) : List Char := (l.reverse.dropWhile wsChar).reverse

/-- Strip whitespace from both ends of a character list. -/
def stripChars (l : List Char) : List Char := dropRightWhileW (l.dropWhile wsChar)

/-- Model of Python `str.strip()` (restricted to the common whitespace set). -/
def pyStrip (s : String) : String := ⟨stripChars s.data⟩

/-- Model of Python `str.startswith(pat)`. -/
def startsW (s pat : String) : Bool := pat.data.isPrefixOf s.data

/-- Model of Python `str.endswith(pat)`. -/
def endsW (s pat : String) : Bool := pat.data.reverse.isPrefixOf s.data.reverse

/-- Model of Python slicing `s[n:]`. -/
def dropN (s : String) (n : Nat) : String := ⟨s.data.drop n⟩

/-- Model of Python slicing `s[:-n]` (for `n ≤ len s`). -/
def dropRightN (s : String) (n : Nat) : String := ⟨(s.data.reverse.drop n).reverse⟩

/-- Model of Python slicing `s[:n]`. -/
def takeN (s : String) (n : Nat) : String := ⟨s.data.take n⟩

/-! ## JSON values and a model of `json.loads`

The parser below models CPython's `json.loads` on the fragment the claims
exercise: `null`, booleans, integer numbers, strings with the single-character
escapes, arrays and objects, with the `json` module's whitespace handling and
its "Extra data" check (the whole input must be consumed).  Fractional and
exponent number forms and `\u` escapes are outside the model. -/

/-- JSON values, as produced by `json.loads` (numbers restricted to integers). -/
inductive Json where
  | null : Json
  | bool (b : Bool) : Json
  | num (n : Int) : Json
  | str (s : String) : Json
  | arr (elems : List Json) : Json
  | obj (fields : List (String × Json)) : Json

/-- Decimal digit test. -/
def isDigitCh (c : Char) : Bool := '0' ≤ c && c ≤ '9'

/-- Numeric value of a decimal digit. -/
def digitVal (c : Char) : Nat := c.toNat - '0'.toNat

/-- Value of a most-significant-first digit list. -/
def digitsToNat (l : List Char) : Nat := l.foldl (fun acc c => 10 * acc + digitVal c) 0

/-- Parse a non-empty run of decimal digits. -/
def parseNat (l : List Char) : Option (Nat × List Char) :=
  match l.takeWhile isDigitCh with
  | [] => none
  | ds => some (digitsToNat ds, l.dropWhile isDigitCh)

/-- Single-character JSON string escapes. -/
def escChar (e : Char) : Option Char :=
  if e = '"' then some '"'
  else if e = '\\' then some '\\'
  else if e = '/' then some '/'
  else if e = 'n' then some '\n'
  else if e = 't' then some '\t'
  else if e = 'r' then some '\r'
  else if e = 'b' then some (Char.ofNat 8)
  else if e = 'f' then some (Char.ofNat 12)
  else none

/-- Parse the body of a JSON string literal (after the opening quote),
returning the decoded characters and the input after the closing quote. -/
def parseStrBody (fuel : Nat) (l : List Char) : Option (List Char × List Char) :=
  match fuel, l with
  | 0, _ => none
  | _, [] => none
  | f + 1, c :: rest =>
    if c = '"' then some ([], rest)
    else if c = '\\' then
      match rest with
      | [] => none
      | e :: rest2 =>
        match escChar e with
        | none => none
        | some ec =>
          match parseStrBody f rest2 with
          | none => none
          | some (cs, r) => some (ec :: cs, r)
    else
      match parseStrBody f rest with
      | none => none
      | some (cs, r) => some (c :: cs, r)

mutual

/-- Parse one JSON value (leading whitespace allowed), returning the value and
the unconsumed remainder.  The head character dispatches exactly as CPython's
scanner does: `{` object, `[` array, `"` string, the three keyword literals,
and `-`/digit numbers. -/
def parseV (fuel : Nat) (l : List Char) : Option (Json × List Char) :=
  match fuel with
  | 0 => none
  | f + 1 =>
    match skipW l with
    | [] => none
    | c :: t =>
      if c = '{' then
        match skipW t with
        | [] =>
          match parseMembers f t with
          | none => none
          | some (ms, r2) => some (Json.obj ms, r2)
        | d :: r =>
          if d = '}' then some (Json.obj [], r)
          else
            match parseMembers f t with
            | none => none
            | some (ms, r2) => some (Json.obj ms, r2)
      else if c = '[' then
        match skipW t with
        | [] =>
          match parseElems f t with
          | none => none
          | some (vs, r2) => some (Json.arr vs, r2)
        | d :: r =>
          if d = ']' then some (Json.arr [], r)
          else
            match parseElems f t with
            | none => none
            | some (vs, r2) => some (Json.arr vs, r2)
      else if c = '"' then
        match parseStrBody f t with
        | none => none
        | some (cs, r) => some (Json.str ⟨cs⟩, r)
      else if c = 'n' then
        if ['u', 'l', 'l'].isPrefixOf t then some (Json.null, t.drop 3) else none
      else if c = 't' then
        if ['r', 'u', 'e'].isPrefixOf t then some (Json.bool true, t.drop 3) else none
      else if c = 'f' then
        if ['a', 'l', 's', 'e'].isPrefixOf t then some (Json.bool false, t.drop 4) else none
      else if c = '-' then
        match parseNat t with
        | none => none
        | some (n, r) => some (Json.num (-(n : Int)), r)
      else if isDigitCh c then
        match parseNat (c :: t) with
        | none => none
        | some (n, r) => some (Json.num (n : Int), r)
      else none

/-- Parse the members of a non-empty JSON object, from just after the `{`
(or after a separating comma), up to and including the closing `}`. -/
def parseMembers (fuel : Nat) (l : List Char) : Option (List (String × Json) × List Char) :=
  match fuel with
  | 0 => none
  | f + 1 =>
    match skipW l with
    | [] => none
    | c :: t =>
      if c = '"' then
        match parseStrBody f t with
        | none => none
        | some (key, r1) =>
          match skipW r1 with
          | [] => none
          | d :: r2 =>
            if d = ':' then
              match parseV f r2 with
              | none => none
              | some (v, r3) =>
                match skipW r3 with
                | [] => none
                | e :: r4 =>
                  if e = ',' then
                    match parseMembers f r4 with
                    | none => none
                    | some (ms, r) => some ((⟨key⟩, v) :: ms, r)
                  else if e = '}' then some ([(⟨key⟩, v)], r4)
                  else none
            else none
      else none

/-- Parse the elements of a non-empty JSON array, from just after the `[`
(or after a separating comma), up to and including the closing `]`. -/
def parseElems (fuel : Nat) (l : List Char) : Option (List Json × List Char) :=
  match fuel with
  | 0 => none
  | f + 1 =>
    match parseV f l with
    | none => none
    | some (v, r1) =>
      match skipW r1 with
      | [] => none
      | d :: r2 =>
        if d = ',' then
          match parseElems f r2 with
          | none => none
          | some (vs, r) => some (v :: vs, r)
        else if d = ']' then some ([v], r2)
        else none

end

/-- Model of `json.loads`: strip surrounding whitespace, parse one value, and
require the whole input to be consumed (the module's "Extra data" check). -/
def Json.parse (s : String) : Option Json :=
  let l := stripChars s.data
  match parseV (l.length + 1) l with
  | some (v, rest) => if rest = [] then some v else none
  | none => none

/-! ## The response normalization step

This is the `try json.loads … except json.JSONDecodeError` block shared by
`analyze_uploaded_product_image` (server.py lines 209-231) and
`generate_story_with_image` (lines 335-360). -/

/-- Result of the tolerant extraction: a decoded value, or the raw text. -/
inductive Payload where
  | structured (data : Json) : Payload
  | raw (text : String) : Payload

/-- Fence-stripping clean-up applied before decoding (server.py 211-216):
strip, drop a leading three-backtick-json marker if present, drop a trailing
three-backtick marker if (then) present, strip again. -/
def cleanResponse (response : String) : String :=
  let c0 := pyStrip response
  let c1 := if startsW c0 "```json" then dropN c0 7 else c0
  let c2 := if endsW c1 "```" then dropRightN c1 3 else c1
  pyStrip c2

/-- The normalization step: decode the cleaned text; on any decode failure
fall back to the original raw text (server.py 218 / 225-231). -/
def normalizeResponse (response : String) : Payload :=
  match Json.parse (cleanResponse response) with
  | some j => Payload.structured j
  | none => Payload.raw response

/-- How the two normalizing endpoints embed a `Payload` in their response
field: a decoded value directly, raw text wrapped as `{"raw_response": …}`. -/
def payloadJson : Payload → Json
  | Payload.structured j => j
  | Payload.raw t => Json.obj [("raw_response", Json.str t)]

/-! ## Data model shared by the endpoints

Database lookups (`db.users.find_one`, `db.products.find_one`) and the chat
backend (`chat.send_message`) are explicit functional parameters.  A Python
exception is a `PyExc`; FastAPI turns a raised `HTTPException` into the HTTP
failure response delivered to the caller, so a handler outcome is modelled as
`Except PyExc body`.  Each endpoint also returns the list of prompts it sent
to the chat backend, making backend call counts observable. -/

/-- An uploaded file: declared media type, payload size in bytes, and the
base64 encoding of the payload (`base64.b64encode(...)`, modelled as given). -/
structure Attachment where
  content_type : String
  size : Nat
  b64 : String

/-- A Python exception: a raised `HTTPException (status, detail)` or any other
exception carrying a message. -/
inductive PyExc where
  | http (status : Nat) (detail : String) : PyExc
  | other (msg : String) : PyExc

/-- Python `str(e)`: Starlette prints an `HTTPException` as `"status: detail"`;
other exceptions print their message. -/
def pyExcStr : PyExc → String
  | PyExc.http s d => toString s ++ ": " ++ d
  | PyExc.other m => m

/-- The `except Exception as e: raise HTTPException(500, pre + str(e))` block
wrapped around every endpoint body: any escaping exception (including an
`HTTPException` raised inside the `try`) is replaced by a 500. -/
def wrap500 {A : Type} (pre : String) (r : Except PyExc A) : Except PyExc A :=
  match r with
  | Except.ok v => Except.ok v
  | Except.error e => Except.error (PyExc.http 500 (pre ++ pyExcStr e))

/-- Python `value or fallback` for an optional string: the fallback is used
when the value is `None` or the empty string (both falsy). -/
def pyOr (v : Option String) (fallback : String) : String :=
  match v with
  | some s => if s = "" then fallback else s
  | none => fallback

/-- A product document as read back from the products collection; the prompt
code accesses `title`, `description` and `category` with `dict.get` defaults. -/
structure Product where
  title : Option String
  description : Option String
  category : Option String

/-- A user document; the recommendation prompt reads `user_type` with a
`dict.get` default. -/
structure User where
  user_type : Option String

/-- The bounded preview derived from the base64 payload:
`f"data:image/jpeg;base64,{image_base64[:100]}..."`. -/
def previewUrl (b64 : String) : String :=
  "data:image/jpeg;base64," ++ takeN b64 100 ++ "..."

/-! ## Prompt texts (server.py 179-203, 296-329, 371-397, 424-450, 466-474,
498-521), transcribed segment by segment around the f-string interpolations. -/

def analyzePSeg0 : String :=
  "\n        You are an expert in traditional Indian crafts and marketplace analysis. Analyze this product image of a handcrafted item and provide detailed suggestions for an artisan marketplace.\n\n        Additional context from artisan: "

def analyzePSeg1 : String :=
  "\n        \n        Provide a comprehensive analysis in JSON format:\n        \x7b\n            \"title\": \"compelling product title (max 60 characters)\",\n            \"description\": \"detailed 2-3 paragraph description highlighting craftsmanship, materials, and cultural significance\",\n            \"suggested_price\": \"single price in INR (number only)\",\n            \"price_range\": \"price range like \x271500-2500 INR\x27\",\n            \"category\": \"product category (e.g., Textiles, Jewelry, Home Decor, etc.)\",\n            \"materials\": [\"list of materials used\"],\n            \"techniques\": [\"traditional techniques involved\"],\n            \"cultural_context\": \"cultural and regional significance\",\n            \"target_audience\": \"who would be interested in this product\",\n            \"care_instructions\": \"how to maintain the product\",\n            \"key_features\": [\"unique selling points\"],\n            \"occasions\": [\"suitable occasions for use/gifting\"],\n            \"color_palette\": [\"dominant colors in the product\"],\n            \"estimated_time_to_make\": \"time needed to craft this item\"\n        \x7d\n        \n        Make the content authentic, culturally respectful, and market-ready.\n        "

def storyPSeg0 : String :=
  "\n        You are a storytelling expert specializing in preserving and sharing cultural heritage stories. Create an engaging artisan story based on this information:\n        \n        Artisan Name: "

def storyPSeg1 : String :=
  "\n        Craft Type: "

def storyPSeg2 : String :=
  "\n        Artisan\x27s Description: "

def storyPSeg3 : String :=
  "\n        Cultural Background: "

def storyPSeg4 : String :=
  "\n        "

def storyPSeg5 : String :=
  "\n        \n        Create a compelling story that includes:\n        1. A captivating title that reflects the artisan\x27s journey\n        2. A rich 4-5 paragraph narrative covering:\n           - The artisan\x27s personal background and how they learned the craft\n           - Detailed description of traditional techniques and materials\n           - Cultural and historical significance of their craft\n           - Challenges faced and overcome in preserving tradition\n           - Vision for passing on the craft to future generations\n        3. Cultural highlights and traditional techniques\n        \n        Make it authentic, emotionally engaging, and respectful of cultural heritage.\n        \n        Format as JSON:\n        \x7b\n            \"title\": \"compelling story title\",\n            \"story\": \"full narrative story (4-5 paragraphs)\",\n            \"short_summary\": \"2-sentence summary for previews\",\n            \"cultural_highlights\": [\"cultural aspect 1\", \"cultural aspect 2\", \"cultural aspect 3\"],\n            \"traditional_techniques\": [\"technique 1\", \"technique 2\", \"technique 3\"],\n            \"heritage_significance\": \"why this craft is important for cultural preservation\",\n            \"artisan_quote\": \"a meaningful quote that could be attributed to the artisan\",\n            \"story_tags\": [\"tag1\", \"tag2\", \"tag3\"],\n            \"estimated_read_time\": \"X minutes\"\n        \x7d\n        "

def genStoryPSeg0 : String :=
  "\n        Create an engaging artisan story based on this information:\n        \n        Artisan: "

def genStoryPSeg1 : String :=
  "\n        Craft Type: "

def genStoryPSeg2 : String :=
  "\n        Simple Description: "

def genStoryPSeg3 : String :=
  "\n        Cultural Background: "

def genStoryPSeg4 : String :=
  "\n        \n        Generate:\n        1. A compelling story title\n        2. An engaging 3-4 paragraph story that includes:\n           - The artisan\x27s heritage and background\n           - The traditional techniques used\n           - Cultural significance of the craft\n           - Personal touch and passion\n           - Connection to community and tradition\n        \n        Make it authentic, respectful, and emotionally engaging.\n        \n        Format as JSON:\n        \x7b\n            \"title\": \"story title\",\n            \"story\": \"full story content\",\n            \"cultural_highlights\": [\"highlight 1\", \"highlight 2\"],\n            \"traditional_techniques\": [\"technique 1\", \"technique 2\"]\n        \x7d\n        "

def socialPSeg0 : String :=
  "\n        Create "

def socialPSeg1 : String :=
  " content for this product:\n        \n        Product: "

def socialPSeg2 : String :=
  "\n        Description: "

def socialPSeg3 : String :=
  "\n        Category: "

def socialPSeg4 : String :=
  "\n        \n        Platform: "

def socialPSeg5 : String :=
  "\n        Requirements: "

def socialPSeg6 : String :=
  "\n        \n        Generate:\n        1. Main post content\n        2. Relevant hashtags (10-15 for Instagram, 5-8 for others)\n        3. Call-to-action\n        4. Story highlights (for Instagram stories)\n        \n        Focus on cultural heritage, traditional craftsmanship, and supporting local artisans.\n        \n        Format as JSON:\n        \x7b\n            \"main_content\": \"post content\",\n            \"hashtags\": [\"#tag1\", \"#tag2\"],\n            \"call_to_action\": \"CTA text\",\n            \"story_highlights\": [\"highlight 1\", \"highlight 2\"],\n            \"best_posting_time\": \"suggested time\"\n        \x7d\n        "

def translatePSeg0 : String :=
  "\n        Translate this product description to Hindi, Tamil, Bengali, and Gujarati:\n        \n        \"Beautiful handwoven silk saree with traditional motifs. This exquisite piece represents generations of skilled craftsmanship.\"\n        \n        Provide translations that maintain cultural authenticity and appeal.\n        \n        Format as JSON with language codes.\n        "

def recPSeg0 : String :=
  "\n        Generate personalized product recommendations for a user interested in traditional Indian crafts.\n        \n        User Profile: "

def recPSeg1 : String :=
  " interested in cultural products\n        \n        Available products: "

def recPSeg2 : String :=
  " traditional craft items\n        \n        Recommend 5 products with reasons based on:\n        1. Cultural interest\n        2. Seasonal relevance\n        3. Gifting occasions\n        4. Price range preferences\n        \n        Format as JSON:\n        \x7b\n            \"recommendations\": [\n                \x7b\n                    \"reason\": \"why recommended\",\n                    \"occasion\": \"suitable for\",\n                    \"cultural_appeal\": \"cultural significance\"\n                \x7d\n            ]\n        \x7d\n        "



/-- Prompt of `analyze_uploaded_product_image` (server.py 179-203). -/
def analyzePrompt (description : Option String) : String :=
  analyzePSeg0 ++ pyOr description "Traditional handcrafted item" ++ analyzePSeg1

/-- The image context sentence added to the story prompt when an upload is
present (server.py 294). -/
def imageContext (image : Option Attachment) : String :=
  match image with
  | some _ => " Based on the image provided showing the craft/artisan at work,"
  | none => ""

/-- The validated form fields of `generate_story_with_image`. -/
structure StoryFields where
  artisan_name : String
  craft_type : String
  simple_text : String
  cultural_background : Option String

/-- Prompt of `generate_story_with_image` (server.py 296-329). -/
def storyPrompt (fields : StoryFields) (image : Option Attachment) : String :=
  storyPSeg0 ++ fields.artisan_name ++ storyPSeg1 ++ fields.craft_type ++ storyPSeg2 ++
    fields.simple_text ++ storyPSeg3 ++
    pyOr fields.cultural_background "Traditional Indian craftsmanship" ++ storyPSeg4 ++
    imageContext image ++ storyPSeg5

/-- Request body of the legacy `/ai/generate-story` endpoint. -/
structure AIStoryRequest where
  product_id : Option String
  simple_text : String
  artisan_name : String
  craft_type : String
  cultural_background : Option String

/-- Prompt of `generate_artisan_story` (server.py 371-397). -/
def genStoryPrompt (request : AIStoryRequest) : String :=
  genStoryPSeg0 ++ request.artisan_name ++ genStoryPSeg1 ++ request.craft_type ++ genStoryPSeg2 ++
    request.simple_text ++ genStoryPSeg3 ++
    pyOr request.cultural_background "Traditional Indian craftsmanship" ++ genStoryPSeg4

/-- Request body of `/ai/generate-social-content`. -/
structure AISocialMediaRequest where
  product_id : String
  platform : String

/-- `platform_specs.get(request.platform, "General social media post")`
(server.py 418-422, 432). -/
def platformSpec (platform : String) : String :=
  if platform = "instagram" then
    "Instagram post with engaging caption, emojis, and hashtags. Include call-to-action."
  else if platform = "facebook" then
    "Facebook post with storytelling approach, longer description, and community engagement."
  else if platform = "twitter" then
    "Twitter thread with multiple tweets, concise but impactful messages."
  else "General social media post"

/-- Prompt of `generate_social_media_content` (server.py 424-450). -/
def socialPrompt (request : AISocialMediaRequest) (product : Product) : String :=
  socialPSeg0 ++ request.platform ++ socialPSeg1 ++ product.title.getD "Handcrafted Item" ++
    socialPSeg2 ++ product.description.getD "Beautiful traditional craft" ++ socialPSeg3 ++
    product.category.getD "Traditional Crafts" ++ socialPSeg4 ++ request.platform ++
    socialPSeg5 ++ platformSpec request.platform ++ socialPSeg6

/-- Prompt of `translate_content` (server.py 466-474): a constant. -/
def translatePrompt : String := translatePSeg0

/-- Prompt of `get_personalized_recommendations` (server.py 498-521). -/
def recPrompt (user : User) (productCount : Nat) : String :=
  recPSeg0 ++ user.user_type.getD "buyer" ++ recPSeg1 ++ toString productCount ++ recPSeg2

/-! ## Endpoint models

Each endpoint is split into the body of its `try` block (`...Inner`) and the
blanket `except Exception` wrapper.  The second component of the result is the
list of prompts sent to the chat backend. -/

/-- Success body of `/ai/analyze-product-image` (server.py 220-231). -/
structure AnalyzeOk where
  ai_analysis : Json
  image_url : String
  status : String

/-- Body of the `try` block of `analyze_uploaded_product_image`
(server.py 166-231). -/
def analyzeInner (image : Attachment) (description : Option String)
    (backend : String → Except String String) : Except PyExc AnalyzeOk × List String :=
  if startsW image.content_type "image/" = false then
    (Except.error (PyExc.http 400 "File must be an image"), [])
  else
    let prompt := analyzePrompt description
    match backend prompt with
    | Except.error m => (Except.error (PyExc.other m), [prompt])
    | Except.ok response =>
      (Except.ok { ai_analysis := payloadJson (normalizeResponse response),
                   image_url := previewUrl image.b64,
                   status := "success" }, [prompt])

/-- `/ai/analyze-product-image` (server.py 161-234). -/
def analyze_uploaded_product_image (image : Attachment) (description : Option String)
    (backend : String → Except String String) : Except PyExc AnalyzeOk × List String :=
  let r := analyzeInner image description backend
  (wrap500 "AI analysis failed: " r.1, r.2)

/-- Success body of `/ai/generate-story-with-image` (server.py 345-360). -/
structure StoryOk where
  story_content : Json
  status : String
  image_preview : Option String

/-- The send-and-normalize tail of `generate_story_with_image`
(server.py 296-360), reached after the optional image was accepted. -/
def storyCall (fields : StoryFields) (image : Option Attachment)
    (backend : String → Except String String) : Except PyExc StoryOk × List String :=
  let prompt := storyPrompt fields image
  match backend prompt with
  | Except.error m => (Except.error (PyExc.other m), [prompt])
  | Except.ok response =>
    (Except.ok { story_content := payloadJson (normalizeResponse response),
                 status := "success",
                 image_preview :=
                   match image with
                   | some a => if a.b64 = "" then none else some (previewUrl a.b64)
                   | none => none }, [prompt])

/-- Body of the `try` block of `generate_story_with_image` (server.py 281-360):
an attached image with a non-image media type raises a 400 before the backend
is called. -/
def storyInner (fields : StoryFields) (image : Option Attachment)
    (backend : String → Except String String) : Except PyExc StoryOk × List String :=
  match image with
  | some a =>
    if startsW a.content_type "image/" = false then
      (Except.error (PyExc.http 400 "File must be an image"), [])
    else storyCall fields (some a) backend
  | none => storyCall fields none backend

/-- `/ai/generate-story-with-image` (server.py 273-363). -/
def generate_story_with_image (fields : StoryFields) (image : Option Attachment)
    (backend : String → Except String String) : Except PyExc StoryOk × List String :=
  let r := storyInner fields image backend
  (wrap500 "Story generation failed: " r.1, r.2)

/-- The raw form data of `/ai/generate-story-with-image` before FastAPI
validation: each `Form(...)` field may be absent. -/
structure StoryForm where
  artisan_name : Option String
  craft_type : Option String
  simple_text : Option String
  cultural_background : Option String

/-- Modelled from the FastAPI `Form(...)` declarations (server.py 276-279):
a request missing a required form field is rejected with a 422 validation
response before the handler body runs; a present value of any content,
including the empty string, passes. -/
def validateStoryForm (f : StoryForm) : Except PyExc StoryFields :=
  match f.artisan_name, f.craft_type, f.simple_text with
  | some a, some c, some s => Except.ok ⟨a, c, s, f.cultural_background⟩
  | _, _, _ => Except.error (PyExc.http 422 "Field required")

/-- The transport-level view of `/ai/generate-story-with-image`: framework
validation of the form, then the handler. -/
def storyEndpoint (f : StoryForm) (image : Option Attachment)
    (backend : String → Except String String) : Except PyExc StoryOk × List String :=
  match validateStoryForm f with
  | Except.error e => (Except.error e, [])
  | Except.ok fields => generate_story_with_image fields image backend

/-- Success body of the legacy `/ai/generate-story` (server.py 402): the raw
backend text, unnormalized. -/
structure GenStoryOk where
  story_content : String
  status : String

/-- Body of the `try` block of `generate_artisan_story` (server.py 368-402). -/
def genStoryInner (request : AIStoryRequest)
    (backend : String → Except String String) : Except PyExc GenStoryOk × List String :=
  let prompt := genStoryPrompt request
  match backend prompt with
  | Except.error m => (Except.error (PyExc.other m), [prompt])
  | Except.ok response =>
    (Except.ok { story_content := response, status := "success" }, [prompt])

/-- Legacy `/ai/generate-story` (server.py 366-405). -/
def generate_artisan_story (request : AIStoryRequest)
    (backend : String → Except String String) : Except PyExc GenStoryOk × List String :=
  let r := genStoryInner request backend
  (wrap500 "Story generation failed: " r.1, r.2)

/-- Success body of `/ai/generate-social-content` (server.py 455): the raw
backend text, unnormalized. -/
structure SocialOk where
  social_content : String
  platform : String
  status : String

/-- Body of the `try` block of `generate_social_media_content`
(server.py 410-455): the product is resolved first; an unknown product id
raises a 404 before the backend is called. -/
def socialInner (request : AISocialMediaRequest) (findProduct : String → Option Product)
    (backend : String → Except String String) : Except PyExc SocialOk × List String :=
  match findProduct request.product_id with
  | none => (Except.error (PyExc.http 404 "Product not found"), [])
  | some product =>
    let prompt := socialPrompt request product
    match backend prompt with
    | Except.error m => (Except.error (PyExc.other m), [prompt])
    | Except.ok response =>
      (Except.ok { social_content := response, platform := request.platform,
                   status := "success" }, [prompt])

/-- `/ai/generate-social-content` (server.py 408-458). -/
def generate_social_media_content (request : AISocialMediaRequest)
    (findProduct : String → Option Product)
    (backend : String → Except String String) : Except PyExc SocialOk × List String :=
  let r := socialInner request findProduct backend
  (wrap500 "Social content generation failed: " r.1, r.2)

/-- Success body of `/ai/translate` (server.py 479): the raw backend text. -/
structure TranslateOk where
  translations : String
  status : String

/-- Body of the `try` block of `translate_content` (server.py 463-479). -/
def translateInner (backend : String → Except String String) :
    Except PyExc TranslateOk × List String :=
  match backend translatePrompt with
  | Except.error m => (Except.error (PyExc.other m), [translatePrompt])
  | Except.ok response =>
    (Except.ok { translations := response, status := "success" }, [translatePrompt])

/-- `/ai/translate` (server.py 461-482).  The handler declares no request
parameters, so whatever body the caller posts is ignored by the framework;
`callerBody` records that input only to make the independence visible. -/
def translate_content (callerBody : String)
    (backend : String → Except String String) : Except PyExc TranslateOk × List String :=
  let r := translateInner backend
  (wrap500 "Translation failed: " r.1, r.2)

/-- Success body of `/ai/recommendations/{user_id}` (server.py 526): the raw
backend text. -/
structure RecOk where
  recommendations : String
  user_id : String
  status : String

/-- Body of the `try` block of `get_personalized_recommendations`
(server.py 487-526): the user is resolved first; an unknown user id raises a
404 before the backend is called.  `productCount` is the size of the sampled
product list (`db.products.find().limit(10)`). -/
def recInner (user_id : String) (findUser : String → Option User) (productCount : Nat)
    (backend : String → Except String String) : Except PyExc RecOk × List String :=
  match findUser user_id with
  | none => (Except.error (PyExc.http 404 "User not found"), [])
  | some user =>
    let prompt := recPrompt user productCount
    match backend prompt with
    | Except.error m => (Except.error (PyExc.other m), [prompt])
    | Except.ok response =>
      (Except.ok { recommendations := response, user_id := user_id,
                   status := "success" }, [prompt])

/-- `/ai/recommendations/{user_id}` (server.py 485-529). -/
def get_personalized_recommendations (user_id : String) (findUser : String → Option User)
    (productCount : Nat) (backend : String → Except String String) :
    Except PyExc RecOk × List String :=
  let r := recInner user_id findUser productCount backend
  (wrap500 "Recommendation failed: " r.1, r.2)

/-! ## Substring containment -/

/-- Substring containment, as a proposition. -/
def containsStr (s pat : String) : Prop := ∃ pre post, s = pre ++ pat ++ post

/-- Substring occurrence test on character lists. -/
def occursB (pat : List Char) : List Char → Bool
  | [] => pat.isEmpty
  | c :: t => pat.isPrefixOf (c :: t) || occursB pat t

/-- Success outcome of an endpoint, as claim C2 describes it: a Success
envelope, or a Failure produced from (and only from) a backend call that
failed, carrying the backend error message. -/
def totalWithBackendFailureOnly {A : Type} (pre : String) (status : A → String)
    (out : Except PyExc A × List String) (backend : String → Except String String) : Prop :=
  (∃ b, out.1 = Except.ok b ∧ status b = "success") ∨
  (∃ m p, p ∈ out.2 ∧ backend p = Except.error m ∧
     out.1 = Except.error (PyExc.http 500 (pre ++ m)))

/-! ## Helper lemmas -/

theorem strDataAppend (a b : String) : (a ++ b).data = a.data ++ b.data := by
  cases a; cases b; rfl

theorem strAppendAssoc (a b c : String) : a ++ b ++ c = a ++ (b ++ c) := by
  cases a; cases b; cases c
  exact congrArg String.mk (List.append_assoc _ _ _)

theorem occursB_append (pat l2 : List Char) (hpre : pat.isPrefixOf l2 = true) :
    ∀ l1, occursB pat (l1 ++ l2) = true := by
  intro l1
  induction l1 with
  | nil =>
    cases l2 with
    | nil =>
      cases pat with
      | nil => rfl
      | cons c t => simp [List.isPrefixOf] at hpre
    | cons c t => simp [occursB, hpre]
  | cons c t ih => simp [occursB, ih]

theorem occursB_of_containsStr (s pat : String) (h : containsStr s pat) :
    occursB pat.data s.data = true := by
  obtain ⟨pre, post, rfl⟩ := h
  rw [strDataAppend, strDataAppend]
  rw [List.append_assoc]
  refine occursB_append _ _ ?_ _
  rw [List.isPrefixOf_iff_prefix]
  exact ⟨post.data, rfl⟩

theorem occursL_split (pat : List Char) :
    ∀ l, occursB pat l = true → ∃ pre post, l = pre ++ pat ++ post := by
  intro l
  induction l with
  | nil =>
    intro h
    cases pat with
    | nil => exact ⟨[], [], rfl⟩
    | cons c t => simp [occursB, List.isEmpty] at h
  | cons c t ih =>
    intro h
    simp only [occursB, Bool.or_eq_true] at h
    rcases h with h | h
    · rw [List.isPrefixOf_iff_prefix] at h
      obtain ⟨post, hpost⟩ := h
      exact ⟨[], post, by simp [hpost]⟩
    · obtain ⟨pre, post, hsplit⟩ := ih h
      exact ⟨c :: pre, post, by simp [hsplit]⟩

theorem containsStr_of_occursB (s pat : String) (h : occursB pat.data s.data = true) :
    containsStr s pat := by
  obtain ⟨pre, post, hsplit⟩ := occursL_split _ _ h
  refine ⟨⟨pre⟩, ⟨post⟩, ?_⟩
  cases s
  cases pat
  exact congrArg String.mk hsplit

/-! ## Claim C1 — malformed-JSON fallback -/

/-- Counterexample to C1: the text `"42"` does not decode as a JSON object
(it decodes as the JSON number 42), yet the normalization step returns a
Structured result carrying that number, not the Raw fallback with the original
text that the claim requires for every input that is not a JSON object. -/
theorem C1_counterexample :
    Json.parse (cleanResponse "42") = some (Json.num 42) ∧
    normalizeResponse "42" = Payload.structured (Json.num 42) ∧
    normalizeResponse "42" ≠ Payload.raw "42" := by
  refine ⟨rfl, rfl, fun h => ?_⟩
  rw [show normalizeResponse "42" = Payload.structured (Json.num 42) from rfl] at h
  exact Payload.noConfusion h

/-- C1 amended: for raw backend text that does not decode as JSON at all
(after trimming and fence stripping), the endpoint returns a Success envelope
carrying the original raw text as the `raw_response` payload — never a Failure
and never an escaping exception; text that decodes as a non-object JSON value
is instead returned as the decoded Structured value. -/
theorem C1_amended (image : Attachment) (description : Option String) (raw : String)
    (himg : startsW image.content_type "image/" = true)
    (hparse : Json.parse (cleanResponse raw) = none) :
    analyze_uploaded_product_image image description (fun _ => Except.ok raw) =
      (Except.ok { ai_analysis := Json.obj [("raw_response", Json.str raw)],
                   image_url := previewUrl image.b64,
                   status := "success" },
       [analyzePrompt description]) := by
  simp [analyze_uploaded_product_image, analyzeInner, himg, wrap500,
        normalizeResponse, hparse, payloadJson]

/-- Witness for C1 amended at a concrete malformed response. -/
theorem C1_witness :
    analyze_uploaded_product_image ⟨"image/png", 4, "QUJDRA=="⟩ none
        (fun _ => Except.ok "not json") =
      (Except.ok { ai_analysis := Json.obj [("raw_response", Json.str "not json")],
                   image_url := previewUrl "QUJDRA==",
                   status := "success" },
       [analyzePrompt none]) :=
  C1_amended ⟨"image/png", 4, "QUJDRA=="⟩ none "not json" rfl rfl

/-! ## Claim C3 — missing reference entity -/

/-- C3: with an unknown product id (resp. user id) the handler raises
`HTTPException(404, "Product not found")` before any backend call, as the
claim intends, but the blanket `except Exception` catches that very exception
and re-raises a 500 whose detail merely embeds the 404 text, so the caller
receives a 500 instead of the intended NotFound failure.  No backend call is
made (the prompt trace is empty). -/
theorem C3_missing_reference :
    generate_social_media_content ⟨"nonexistent", "instagram"⟩ (fun _ => none)
        (fun _ => Except.ok "content") =
      (Except.error (PyExc.http 500 "Social content generation failed: 404: Product not found"),
       []) ∧
    get_personalized_recommendations "ghost" (fun _ => none) 0 (fun _ => Except.ok "recs") =
      (Except.error (PyExc.http 500 "Recommendation failed: 404: User not found"), []) :=
  ⟨rfl, rfl⟩

/-! ## Claim C4 — normalization before the envelope is returned -/

/-- Counterexample to C4: the translation endpoint returns the backend text
verbatim even when that text decodes cleanly as a JSON object, so no tolerant
structured extraction is attempted for that kind. -/
theorem C4_counterexample :
    Json.parse "\x7b\"a\": 1\x7d" = some (Json.obj [("a", Json.num 1)]) ∧
    translate_content "ignored" (fun _ => Except.ok "\x7b\"a\": 1\x7d") =
      (Except.ok { translations := "\x7b\"a\": 1\x7d", status := "success" },
       [translatePrompt]) :=
  ⟨rfl, rfl⟩

/-- C4 amended: only the image-upload product-analysis and story-generation
endpoints pass the backend text through the normalizer; the social-content,
translation and recommendation endpoints return the backend text verbatim
without attempting structured extraction. -/
theorem C4_amended (raw : String) (image : Attachment) (description : Option String)
    (fields : StoryFields) (sreq : AISocialMediaRequest) (product : Product)
    (uid : String) (user : User) (findP : String → Option Product)
    (findU : String → Option User) (count : Nat) (body : String)
    (himg : startsW image.content_type "image/" = true)
    (hfp : findP sreq.product_id = some product)
    (hfu : findU uid = some user) :
    (analyze_uploaded_product_image image description (fun _ => Except.ok raw)).1 =
      Except.ok { ai_analysis := payloadJson (normalizeResponse raw),
                  image_url := previewUrl image.b64, status := "success" } ∧
    (generate_story_with_image fields none (fun _ => Except.ok raw)).1 =
      Except.ok { story_content := payloadJson (normalizeResponse raw),
                  status := "success", image_preview := none } ∧
    (generate_social_media_content sreq findP (fun _ => Except.ok raw)).1 =
      Except.ok { social_content := raw, platform := sreq.platform, status := "success" } ∧
    (translate_content body (fun _ => Except.ok raw)).1 =
      Except.ok { translations := raw, status := "success" } ∧
    (get_personalized_recommendations uid findU count (fun _ => Except.ok raw)).1 =
      Except.ok { recommendations := raw, user_id := uid, status := "success" } := by
  refine ⟨?_, ?_, ?_, ?_, ?_⟩
  · simp [analyze_uploaded_product_image, analyzeInner, himg, wrap500]
  · simp [generate_story_with_image, storyInner, storyCall, wrap500]
  · simp [generate_social_media_content, socialInner, hfp, wrap500]
  · simp [translate_content, translateInner, wrap500]
  · simp [get_personalized_recommendations, recInner, hfu, wrap500]

/-- Witness for C4 amended at concrete inputs. -/
theorem C4_witness :
    (analyze_uploaded_product_image ⟨"image/png", 3, "QUJD"⟩ none
        (fun _ => Except.ok "hello")).1 =
      Except.ok { ai_analysis := payloadJson (normalizeResponse "hello"),
                  image_url := previewUrl "QUJD", status := "success" } ∧
    (generate_story_with_image ⟨"Asha", "Weaving", "text", none⟩ none
        (fun _ => Except.ok "hello")).1 =
      Except.ok { story_content := payloadJson (normalizeResponse "hello"),
                  status := "success", image_preview := none } ∧
    (generate_social_media_content ⟨"p1", "instagram"⟩ (fun _ => some ⟨none, none, none⟩)
        (fun _ => Except.ok "hello")).1 =
      Except.ok { social_content := "hello", platform := "instagram", status := "success" } ∧
    (translate_content "anything" (fun _ => Except.ok "hello")).1 =
      Except.ok { translations := "hello", status := "success" } ∧
    (get_personalized_recommendations "u1" (fun _ => some ⟨none⟩) 0
        (fun _ => Except.ok "hello")).1 =
      Except.ok { recommendations := "hello", user_id := "u1", status := "success" } :=
  C4_amended "hello" ⟨"image/png", 3, "QUJD"⟩ none ⟨"Asha", "Weaving", "text", none⟩
    ⟨"p1", "instagram"⟩ ⟨none, none, none⟩ "u1" ⟨none⟩ (fun _ => some ⟨none, none, none⟩)
    (fun _ => some ⟨none⟩) 0 "anything" rfl rfl rfl

/-! ## Claim C5 — fence stripping -/

/-- Counterexample to C5: an input carrying only the leading fence marker
still has that marker stripped — the cleaned text decodes and the result is
Structured, whereas the claim requires the text to reach the decoder unchanged
apart from trimming (where it would fail to decode and be returned Raw). -/
theorem C5_counterexample :
    startsW (pyStrip "```json \x7b\"a\": 1\x7d") "```json" = true ∧
    endsW (pyStrip "```json \x7b\"a\": 1\x7d") "```" = false ∧
    Json.parse (pyStrip "```json \x7b\"a\": 1\x7d") = none ∧
    cleanResponse "```json \x7b\"a\": 1\x7d" = "\x7b\"a\": 1\x7d" ∧
    normalizeResponse "```json \x7b\"a\": 1\x7d" =
      Payload.structured (Json.obj [("a", Json.num 1)]) ∧
    normalizeResponse "```json \x7b\"a\": 1\x7d" ≠ Payload.raw "```json \x7b\"a\": 1\x7d" := by
  refine ⟨rfl, rfl, rfl, rfl, rfl, fun h => ?_⟩
  rw [show normalizeResponse "```json \x7b\"a\": 1\x7d" =
        Payload.structured (Json.obj [("a", Json.num 1)]) from rfl] at h
  exact Payload.noConfusion h

/-- C5 amended: the normalizer strips a leading three-backtick-json marker
when present and a trailing three-backtick marker when (after that) present,
each independently of the other; an input carrying only one of the two markers
still has that marker stripped (and the result trimmed) before decoding. -/
theorem C5_amended (s : String) :
    (startsW (pyStrip s) "```json" = true →
       endsW (dropN (pyStrip s) 7) "```" = false →
       cleanResponse s = pyStrip (dropN (pyStrip s) 7)) ∧
    (startsW (pyStrip s) "```json" = false →
       endsW (pyStrip s) "```" = true →
       cleanResponse s = pyStrip (dropRightN (pyStrip s) 3)) := by
  constructor
  · intro h1 h2
    simp [cleanResponse, h1, h2]
  · intro h1 h2
    simp [cleanResponse, h1, h2]

/-- Witness for C5 amended: a leading-only input and a trailing-only input. -/
theorem C5_witness :
    cleanResponse "```json \x7b\"a\": 1\x7d" = pyStrip (dropN (pyStrip "```json \x7b\"a\": 1\x7d") 7) ∧
    cleanResponse "\x7b\"a\": 1\x7d```" = pyStrip (dropRightN (pyStrip "\x7b\"a\": 1\x7d```") 3) :=
  ⟨(C5_amended "```json \x7b\"a\": 1\x7d").1 rfl rfl,
   (C5_amended "\x7b\"a\": 1\x7d```").2 rfl rfl⟩

/-! ## Claim C7 — attachment validation -/

/-- Counterexample to C7: an `image/png` payload one byte past a 10 MB bound
is accepted (no size check exists in the code), and the `text/plain` rejection
reaches the caller as a 500 whose detail embeds the 400 message, not as a 400
client-input error, because the blanket handler re-wraps the HTTPException. -/
theorem C7_counterexample :
    (analyze_uploaded_product_image ⟨"image/png", 10485761, "QUJD"⟩ none
        (fun _ => Except.ok "ok")).1 =
      Except.ok { ai_analysis := Json.obj [("raw_response", Json.str "ok")],
                  image_url := previewUrl "QUJD", status := "success" } ∧
    (analyze_uploaded_product_image ⟨"text/plain", 4, "QUJD"⟩ none
        (fun _ => Except.ok "ok")).1 =
      Except.error (PyExc.http 500 "AI analysis failed: 400: File must be an image") :=
  ⟨rfl, rfl⟩

/-- C7 amended: attachment validation rejects exactly when the declared media
type does not start with `image/` — payload size is never examined, so an
`image/png` payload of any size is accepted — and the rejection happens before
any backend call (the prompt trace is empty), though it is surfaced to the
caller as a 500 wrapping the 400 validation message. -/
theorem C7_amended (image : Attachment) (description : Option String)
    (fields : StoryFields) (backend : String → Except String String) :
    (startsW image.content_type "image/" = false →
       analyze_uploaded_product_image image description backend =
         (Except.error (PyExc.http 500 "AI analysis failed: 400: File must be an image"), []) ∧
       generate_story_with_image fields (some image) backend =
         (Except.error (PyExc.http 500 "Story generation failed: 400: File must be an image"), [])) ∧
    (startsW image.content_type "image/" = true →
       ∀ raw, backend (analyzePrompt description) = Except.ok raw →
         ∃ b, (analyze_uploaded_product_image image description backend).1 = Except.ok b ∧
           b.status = "success") := by
  constructor
  · intro h
    constructor
    · simp only [analyze_uploaded_product_image, analyzeInner, h, wrap500, pyExcStr]
      rfl
    · simp only [generate_story_with_image, storyInner, h, wrap500, pyExcStr]
      rfl
  · intro h raw hb
    refine ⟨{ ai_analysis := payloadJson (normalizeResponse raw),
              image_url := previewUrl image.b64, status := "success" }, ?_, rfl⟩
    simp [analyze_uploaded_product_image, analyzeInner, h, hb, wrap500]

/-- Witness for C7 amended: a rejected `text/plain` payload and an accepted
oversized `image/png` payload. -/
theorem C7_witness :
    (analyze_uploaded_product_image ⟨"text/plain", 4, "QUJD"⟩ none
         (fun _ => Except.ok "ok") =
       (Except.error (PyExc.http 500 "AI analysis failed: 400: File must be an image"), []) ∧
     generate_story_with_image ⟨"Asha", "Weaving", "text", none⟩
         (some ⟨"text/plain", 4, "QUJD"⟩) (fun _ => Except.ok "ok") =
       (Except.error (PyExc.http 500 "Story generation failed: 400: File must be an image"), [])) ∧
    (∃ b, (analyze_uploaded_product_image ⟨"image/png", 10485761, "QUJD"⟩ none
         (fun _ => Except.ok "ok")).1 = Except.ok b ∧ b.status = "success") :=
  ⟨(C7_amended ⟨"text/plain", 4, "QUJD"⟩ none ⟨"Asha", "Weaving", "text", none⟩
      (fun _ => Except.ok "ok")).1 rfl,
   (C7_amended ⟨"image/png", 10485761, "QUJD"⟩ none ⟨"Asha", "Weaving", "text", none⟩
      (fun _ => Except.ok "ok")).2 rfl "ok" rfl⟩

/-! ## Claim C8 — required-field validation for StoryGeneration -/

/-- Counterexample to C8: a story request whose artisan name is present but
empty passes validation, the backend is invoked (one prompt is sent), and a
Success envelope is returned — the claim requires a ValidationError rejection
before any backend call for empty required fields. -/
theorem C8_counterexample :
    validateStoryForm ⟨some "", some "Weaving", some "x", none⟩ =
      Except.ok ⟨"", "Weaving", "x", none⟩ ∧
    storyEndpoint ⟨some "", some "Weaving", some "x", none⟩ none
        (fun _ => Except.ok "story") =
      (Except.ok { story_content := Json.obj [("raw_response", Json.str "story")],
                   status := "success", image_preview := none },
       [storyPrompt ⟨"", "Weaving", "x", none⟩ none]) :=
  ⟨rfl, rfl⟩

/-- C8 amended: the StoryGeneration endpoint requires artisan name, craft type
and free text to be present — a missing field is rejected by the framework
validation of the `Form(...)` declarations with a 422 before the handler and
before any backend call — but emptiness is not checked: present-but-empty
strings pass validation and the request proceeds to the backend. -/
theorem C8_amended (f : StoryForm) (image : Option Attachment)
    (backend : String → Except String String) :
    ((f.artisan_name = none ∨ f.craft_type = none ∨ f.simple_text = none) →
       storyEndpoint f image backend = (Except.error (PyExc.http 422 "Field required"), [])) ∧
    (∀ a c s, f.artisan_name = some a → f.craft_type = some c → f.simple_text = some s →
       storyEndpoint f image backend =
         generate_story_with_image ⟨a, c, s, f.cultural_background⟩ image backend) := by
  obtain ⟨fa, fc, fs, fb⟩ := f
  constructor
  · rintro (rfl | rfl | rfl)
    · simp [storyEndpoint, validateStoryForm]
    · cases fa <;> simp [storyEndpoint, validateStoryForm]
    · cases fa <;> cases fc <;> simp [storyEndpoint, validateStoryForm]
  · rintro a c s rfl rfl rfl
    simp [storyEndpoint, validateStoryForm]

/-- Witness for C8 amended: a missing craft type is rejected with a 422 and no
backend call; a fully present (even empty-string) form reaches the handler. -/
theorem C8_witness :
    storyEndpoint ⟨some "Asha", none, some "x", none⟩ none (fun _ => Except.ok "story") =
      (Except.error (PyExc.http 422 "Field required"), []) ∧
    storyEndpoint ⟨some "", some "Weaving", some "x", none⟩ none (fun _ => Except.ok "story") =
      generate_story_with_image ⟨"", "Weaving", "x", none⟩ none (fun _ => Except.ok "story") :=
  ⟨(C8_amended ⟨some "Asha", none, some "x", none⟩ none (fun _ => Except.ok "story")).1
      (Or.inr (Or.inl rfl)),
   (C8_amended ⟨some "", some "Weaving", some "x", none⟩ none (fun _ => Except.ok "story")).2
      "" "Weaving" "x" rfl rfl rfl⟩

/-! ## Claim C9 — fallback phrase for missing optional fields -/

set_option maxRecDepth 200000 in
/-- Counterexample to C9: for the spec scenario (Asha, Block Printing, 20
years of practice, no cultural background) the built prompt does not contain
the literal fallback phrase "unspecified" anywhere. -/
theorem C9_counterexample :
    ¬ containsStr (storyPrompt ⟨"Asha", "Block Printing", "20 years of practice", none⟩ none)
        "unspecified" := by
  intro h
  have h2 := occursB_of_containsStr _ _ h
  have h3 : occursB "unspecified".data
      (storyPrompt ⟨"Asha", "Block Printing", "20 years of practice", none⟩ none).data =
        false := rfl
  cases h3.symm.trans h2

/-- C9 amended: a missing optional field is replaced by a named fallback
phrase rather than left blank, but the phrase is "Traditional Indian
craftsmanship" for a missing cultural background (both story prompts) and
"Traditional handcrafted item" for a missing product description — not the
literal "unspecified". -/
theorem C9_amended (fields : StoryFields) (image : Option Attachment)
    (request : AIStoryRequest) (description : Option String)
    (h1 : fields.cultural_background = none) (h2 : request.cultural_background = none)
    (h3 : description = none) :
    containsStr (storyPrompt fields image) "Traditional Indian craftsmanship" ∧
    containsStr (genStoryPrompt request) "Traditional Indian craftsmanship" ∧
    containsStr (analyzePrompt description) "Traditional handcrafted item" := by
  subst h3
  refine ⟨?_, ?_, ?_⟩
  · exact ⟨storyPSeg0 ++ fields.artisan_name ++ storyPSeg1 ++ fields.craft_type ++ storyPSeg2 ++
        fields.simple_text ++ storyPSeg3,
      storyPSeg4 ++ imageContext image ++ storyPSeg5,
      by simp only [storyPrompt, h1, pyOr, strAppendAssoc]⟩
  · exact ⟨genStoryPSeg0 ++ request.artisan_name ++ genStoryPSeg1 ++ request.craft_type ++
        genStoryPSeg2 ++ request.simple_text ++ genStoryPSeg3,
      genStoryPSeg4,
      by simp only [genStoryPrompt, h2, pyOr, strAppendAssoc]⟩
  · exact ⟨analyzePSeg0, analyzePSeg1, by simp only [analyzePrompt, pyOr, strAppendAssoc]⟩

/-- Witness for C9 amended at the spec scenario inputs. -/
theorem C9_witness :
    containsStr (storyPrompt ⟨"Asha", "Block Printing", "20 years of practice", none⟩ none)
      "Traditional Indian craftsmanship" ∧
    containsStr (genStoryPrompt ⟨none, "20 years of practice", "Asha", "Block Printing", none⟩)
      "Traditional Indian craftsmanship" ∧
    containsStr (analyzePrompt none) "Traditional handcrafted item" :=
  C9_amended ⟨"Asha", "Block Printing", "20 years of practice", none⟩ none
    ⟨none, "20 years of practice", "Asha", "Block Printing", none⟩ none rfl rfl rfl

/-! ## Claim C10 — translation ignores all caller input -/

set_option maxRecDepth 200000 in
/-- C10: the translation operation is independent of any caller input — every
invocation sends the backend the single hard-coded prompt, which embeds the
fixed sample product description and the four target languages Hindi, Tamil,
Bengali and Gujarati. -/
theorem C10_translation_independent (body1 body2 : String)
    (backend : String → Except String String) :
    translate_content body1 backend = translate_content body2 backend ∧
    (translate_content body1 backend).2 = [translatePrompt] ∧
    containsStr translatePrompt "Hindi" ∧
    containsStr translatePrompt "Tamil" ∧
    containsStr translatePrompt "Bengali" ∧
    containsStr translatePrompt "Gujarati" ∧
    containsStr translatePrompt
      "Beautiful handwoven silk saree with traditional motifs. This exquisite piece represents generations of skilled craftsmanship." := by
  refine ⟨rfl, ?_, containsStr_of_occursB _ _ rfl, containsStr_of_occursB _ _ rfl,
    containsStr_of_occursB _ _ rfl, containsStr_of_occursB _ _ rfl,
    containsStr_of_occursB _ _ rfl⟩
  cases hb : backend translatePrompt <;>
    simp [translate_content, translateInner, hb, wrap500]

/-! ## Claim C2 — totality and failure signalling -/

/-- C2: for every well-formed request of each kind (valid attachment where one
is supplied, resolving reference entities for the social and recommendation
kinds), the endpoint returns either a Success envelope or a Failure produced
from a failed backend call, carrying the backend error message — no other path
signals failure and nothing escapes unhandled. -/
theorem C2_generate_never_raises
    (image : Attachment) (description : Option String)
    (fields : StoryFields) (simage : Option Attachment)
    (sreq : AISocialMediaRequest) (product : Product) (uid : String) (user : User)
    (findP : String → Option Product) (findU : String → Option User) (count : Nat)
    (body : String) (backend : String → Except String String)
    (himg : startsW image.content_type "image/" = true)
    (hsimg : ∀ a, simage = some a → startsW a.content_type "image/" = true)
    (hfp : findP sreq.product_id = some product)
    (hfu : findU uid = some user) :
    totalWithBackendFailureOnly "AI analysis failed: " AnalyzeOk.status
      (analyze_uploaded_product_image image description backend) backend ∧
    totalWithBackendFailureOnly "Story generation failed: " StoryOk.status
      (generate_story_with_image fields simage backend) backend ∧
    totalWithBackendFailureOnly "Social content generation failed: " SocialOk.status
      (generate_social_media_content sreq findP backend) backend ∧
    totalWithBackendFailureOnly "Translation failed: " TranslateOk.status
      (translate_content body backend) backend ∧
    totalWithBackendFailureOnly "Recommendation failed: " RecOk.status
      (get_personalized_recommendations uid findU count backend) backend := by
  refine ⟨?_, ?_, ?_, ?_, ?_⟩
  · cases hb : backend (analyzePrompt description) with
    | ok raw =>
      refine Or.inl ⟨{ ai_analysis := payloadJson (normalizeResponse raw),
                       image_url := previewUrl image.b64, status := "success" }, ?_, rfl⟩
      simp [analyze_uploaded_product_image, analyzeInner, himg, hb, wrap500]
    | error m =>
      refine Or.inr ⟨m, analyzePrompt description, ?_, hb, ?_⟩
      · simp [analyze_uploaded_product_image, analyzeInner, himg, hb]
      · simp [analyze_uploaded_product_image, analyzeInner, himg, hb, wrap500, pyExcStr]
  · cases simage with
    | none =>
      cases hb : backend (storyPrompt fields none) with
      | ok raw =>
        refine Or.inl ⟨{ story_content := payloadJson (normalizeResponse raw),
                         status := "success", image_preview := none }, ?_, rfl⟩
        simp [generate_story_with_image, storyInner, storyCall, hb, wrap500]
      | error m =>
        refine Or.inr ⟨m, storyPrompt fields none, ?_, hb, ?_⟩
        · simp [generate_story_with_image, storyInner, storyCall, hb]
        · simp [generate_story_with_image, storyInner, storyCall, hb, wrap500, pyExcStr]
    | some a =>
      have ha := hsimg a rfl
      cases hb : backend (storyPrompt fields (some a)) with
      | ok raw =>
        refine Or.inl ⟨{ story_content := payloadJson (normalizeResponse raw),
                         status := "success",
                         image_preview :=
                           if a.b64 = "" then none else some (previewUrl a.b64) }, ?_, rfl⟩
        simp [generate_story_with_image, storyInner, storyCall, ha, hb, wrap500]
      | error m =>
        refine Or.inr ⟨m, storyPrompt fields (some a), ?_, hb, ?_⟩
        · simp [generate_story_with_image, storyInner, storyCall, ha, hb]
        · simp [generate_story_with_image, storyInner, storyCall, ha, hb, wrap500, pyExcStr]
  · cases hb : backend (socialPrompt sreq product) with
    | ok raw =>
      refine Or.inl ⟨{ social_content := raw, platform := sreq.platform,
                       status := "success" }, ?_, rfl⟩
      simp [generate_social_media_content, socialInner, hfp, hb, wrap500]
    | error m =>
      refine Or.inr ⟨m, socialPrompt sreq product, ?_, hb, ?_⟩
      · simp [generate_social_media_content, socialInner, hfp, hb]
      · simp [generate_social_media_content, socialInner, hfp, hb, wrap500, pyExcStr]
  · cases hb : backend translatePrompt with
    | ok raw =>
      refine Or.inl ⟨{ translations := raw, status := "success" }, ?_, rfl⟩
      simp [translate_content, translateInner, hb, wrap500]
    | error m =>
      refine Or.inr ⟨m, translatePrompt, ?_, hb, ?_⟩
      · simp [translate_content, translateInner, hb]
      · simp [translate_content, translateInner, hb, wrap500, pyExcStr]
  · cases hb : backend (recPrompt user count) with
    | ok raw =>
      refine Or.inl ⟨{ recommendations := raw, user_id := uid, status := "success" }, ?_, rfl⟩
      simp [get_personalized_recommendations, recInner, hfu, hb, wrap500]
    | error m =>
      refine Or.inr ⟨m, recPrompt user count, ?_, hb, ?_⟩
      · simp [get_personalized_recommendations, recInner, hfu, hb]
      · simp [get_personalized_recommendations, recInner, hfu, hb, wrap500, pyExcStr]

/-- Witness for C2 at concrete well-formed requests and a succeeding backend. -/
theorem C2_witness :
    totalWithBackendFailureOnly "AI analysis failed: " AnalyzeOk.status
      (analyze_uploaded_product_image ⟨"image/png", 3, "QUJD"⟩ none
        (fun _ => Except.ok "hi")) (fun _ => Except.ok "hi") ∧
    totalWithBackendFailureOnly "Story generation failed: " StoryOk.status
      (generate_story_with_image ⟨"Asha", "Weaving", "t", none⟩ none
        (fun _ => Except.ok "hi")) (fun _ => Except.ok "hi") ∧
    totalWithBackendFailureOnly "Social content generation failed: " SocialOk.status
      (generate_social_media_content ⟨"p1", "instagram"⟩ (fun _ => some ⟨none, none, none⟩)
        (fun _ => Except.ok "hi")) (fun _ => Except.ok "hi") ∧
    totalWithBackendFailureOnly "Translation failed: " TranslateOk.status
      (translate_content "b" (fun _ => Except.ok "hi")) (fun _ => Except.ok "hi") ∧
    totalWithBackendFailureOnly "Recommendation failed: " RecOk.status
      (get_personalized_recommendations "u1" (fun _ => some ⟨none⟩) 0
        (fun _ => Except.ok "hi")) (fun _ => Except.ok "hi") :=
  C2_generate_never_raises ⟨"image/png", 3, "QUJD"⟩ none ⟨"Asha", "Weaving", "t", none⟩ none
    ⟨"p1", "instagram"⟩ ⟨none, none, none⟩ "u1" ⟨none⟩ (fun _ => some ⟨none, none, none⟩)
    (fun _ => some ⟨none⟩) 0 "b" (fun _ => Except.ok "hi") rfl
    (fun a h => Option.noConfusion h) rfl rfl

/-! ## Parser metatheory for claim C6

The fence round-trip claim quantifies over every string that decodes as a
JSON object, so the facts below characterize a successful object parse: the
unconsumed remainder is a suffix of the input, a parsed object starts with `{`
after leading whitespace, and the consumed text ends with the closing `}`. -/

theorem skipW_suffix (l : List Char) : skipW l <:+ l :=
  List.dropWhile_suffix wsChar

theorem skipW_cons_elim {l : List Char} {c : Char} {t : List Char}
    (h : skipW l = c :: t) : c :: t <:+ l :=
  h ▸ skipW_suffix l

theorem drop_suffix_of (n : Nat) (l : List Char) : l.drop n <:+ l :=
  List.drop_suffix n l

theorem suffix_through_skipW {r t l : List Char} {c : Char}
    (hsk : skipW l = c :: t) (h : r <:+ t) : r <:+ l :=
  h.trans ((List.suffix_cons c t).trans (skipW_cons_elim hsk))

theorem parseStrBody_suffix (f : Nat) :
    ∀ l cs r, parseStrBody f l = some (cs, r) → r <:+ l := by
  induction f with
  | zero => intro l cs r h; simp [parseStrBody] at h
  | succ f ih =>
    intro l cs r h
    cases l with
    | nil => simp [parseStrBody] at h
    | cons c rest =>
      simp only [parseStrBody] at h
      repeat' split at h
      all_goals
        first
        | exact Option.noConfusion h
        | · injection h with h1
            injection h1 with hcs hr
            subst hr
            first
            | exact List.suffix_cons _ _
            | exact ((ih _ _ _ (by assumption)).trans (List.suffix_cons _ _))
            | exact (((ih _ _ _ (by assumption)).trans (List.suffix_cons _ _)).trans
                (List.suffix_cons _ _))

theorem parseNat_suffix (l : List Char) (n : Nat) (r : List Char)
    (h : parseNat l = some (n, r)) : r <:+ l := by
  simp only [parseNat] at h
  split at h
  · exact Option.noConfusion h
  · injection h with h1
    injection h1 with hn hr
    subst hr
    exact List.dropWhile_suffix _

theorem parse_suffix (f : Nat) :
    (∀ l v r, parseV f l = some (v, r) → r <:+ l) ∧
    (∀ l ms r, parseMembers f l = some (ms, r) → r <:+ l) ∧
    (∀ l vs r, parseElems f l = some (vs, r) → r <:+ l) := by
  induction f with
  | zero =>
    refine ⟨?_, ?_, ?_⟩ <;> intro l x r h <;>
      simp [parseV, parseMembers, parseElems] at h
  | succ f ih =>
    obtain ⟨ihV, ihM, ihE⟩ := ih
    refine ⟨?_, ?_, ?_⟩
    · intro l v r h
      simp only [parseV] at h
      cases hsk : skipW l with
      | nil => simp only [hsk] at h; exact Option.noConfusion h
      | cons c t =>
        simp only [hsk] at h
        by_cases h1 : c = '{'
        · rw [if_pos h1] at h
          cases hsk2 : skipW t with
          | nil =>
            simp only [hsk2] at h
            cases hp : parseMembers f t with
            | none => simp only [hp] at h; exact Option.noConfusion h
            | some pr =>
              obtain ⟨ms, r2⟩ := pr
              simp only [hp] at h
              injection h with hh
              injection hh with hv hr
              subst hr
              exact suffix_through_skipW hsk (ihM _ _ _ hp)
          | cons d r0 =>
            simp only [hsk2] at h
            by_cases h2 : d = '}'
            · rw [if_pos h2] at h
              injection h with hh
              injection hh with hv hr
              subst hr
              exact suffix_through_skipW hsk (suffix_through_skipW hsk2 (List.suffix_refl _))
            · rw [if_neg h2] at h
              cases hp : parseMembers f t with
              | none => simp only [hp] at h; exact Option.noConfusion h
              | some pr =>
                obtain ⟨ms, r2⟩ := pr
                simp only [hp] at h
                injection h with hh
                injection hh with hv hr
                subst hr
                exact suffix_through_skipW hsk (ihM _ _ _ hp)
        · rw [if_neg h1] at h
          by_cases h2 : c = '['
          · rw [if_pos h2] at h
            cases hsk2 : skipW t with
            | nil =>
              simp only [hsk2] at h
              cases hp : parseElems f t with
              | none => simp only [hp] at h; exact Option.noConfusion h
              | some pr =>
                obtain ⟨vs, r2⟩ := pr
                simp only [hp] at h
                injection h with hh
                injection hh with hv hr
                subst hr
                exact suffix_through_skipW hsk (ihE _ _ _ hp)
            | cons d r0 =>
              simp only [hsk2] at h
              by_cases h3 : d = ']'
              · rw [if_pos h3] at h
                injection h with hh
                injection hh with hv hr
                subst hr
                exact suffix_through_skipW hsk (suffix_through_skipW hsk2 (List.suffix_refl _))
              · rw [if_neg h3] at h
                cases hp : parseElems f t with
                | none => simp only [hp] at h; exact Option.noConfusion h
                | some pr =>
                  obtain ⟨vs, r2⟩ := pr
                  simp only [hp] at h
                  injection h with hh
                  injection hh with hv hr
                  subst hr
                  exact suffix_through_skipW hsk (ihE _ _ _ hp)
          · rw [if_neg h2] at h
            by_cases h3 : c = '"'
            · rw [if_pos h3] at h
              cases hp : parseStrBody f t with
              | none => simp only [hp] at h; exact Option.noConfusion h
              | some pr =>
                obtain ⟨cs, r2⟩ := pr
                simp only [hp] at h
                injection h with hh
                injection hh with hv hr
                subst hr
                exact suffix_through_skipW hsk (parseStrBody_suffix f _ _ _ hp)
            · rw [if_neg h3] at h
              by_cases h4 : c = 'n'
              · rw [if_pos h4] at h
                by_cases h5 : ['u', 'l', 'l'].isPrefixOf t = true
                · rw [if_pos h5] at h
                  injection h with hh
                  injection hh with hv hr
                  subst hr
                  exact suffix_through_skipW hsk (drop_suffix_of 3 t)
                · rw [if_neg h5] at h
                  exact Option.noConfusion h
              · rw [if_neg h4] at h
                by_cases h5 : c = 't'
                · rw [if_pos h5] at h
                  by_cases h6 : ['r', 'u', 'e'].isPrefixOf t = true
                  · rw [if_pos h6] at h
                    injection h with hh
                    injection hh with hv hr
                    subst hr
                    exact suffix_through_skipW hsk (drop_suffix_of 3 t)
                  · rw [if_neg h6] at h
                    exact Option.noConfusion h
                · rw [if_neg h5] at h
                  by_cases h6 : c = 'f'
                  · rw [if_pos h6] at h
                    by_cases h7 : ['a', 'l', 's', 'e'].isPrefixOf t = true
                    · rw [if_pos h7] at h
                      injection h with hh
                      injection hh with hv hr
                      subst hr
                      exact suffix_through_skipW hsk (drop_suffix_of 4 t)
                    · rw [if_neg h7] at h
                      exact Option.noConfusion h
                  · rw [if_neg h6] at h
                    by_cases h7 : c = '-'
                    · rw [if_pos h7] at h
                      cases hp : parseNat t with
                      | none => simp only [hp] at h; exact Option.noConfusion h
                      | some pr =>
                        obtain ⟨n, r2⟩ := pr
                        simp only [hp] at h
                        injection h with hh
                        injection hh with hv hr
                        subst hr
                        exact suffix_through_skipW hsk (parseNat_suffix _ _ _ hp)
                    · rw [if_neg h7] at h
                      by_cases h8 : isDigitCh c = true
                      · rw [if_pos h8] at h
                        cases hp : parseNat (c :: t) with
                        | none => simp only [hp] at h; exact Option.noConfusion h
                        | some pr =>
                          obtain ⟨n, r2⟩ := pr
                          simp only [hp] at h
                          injection h with hh
                          injection hh with hv hr
                          subst hr
                          exact (parseNat_suffix _ _ _ hp).trans (skipW_cons_elim hsk)
                      · rw [if_neg h8] at h
                        exact Option.noConfusion h
    · intro l ms r h
      simp only [parseMembers] at h
      cases hsk : skipW l with
      | nil => simp only [hsk] at h; exact Option.noConfusion h
      | cons c t =>
        simp only [hsk] at h
        by_cases hc : c = '"'
        · rw [if_pos hc] at h
          cases hp : parseStrBody f t with
          | none => simp only [hp] at h; exact Option.noConfusion h
          | some pr =>
            obtain ⟨key, r1⟩ := pr
            simp only [hp] at h
            cases hsk2 : skipW r1 with
            | nil => simp only [hsk2] at h; exact Option.noConfusion h
            | cons d r2 =>
              simp only [hsk2] at h
              by_cases hd : d = ':'
              · rw [if_pos hd] at h
                cases hpV : parseV f r2 with
                | none => simp only [hpV] at h; exact Option.noConfusion h
                | some pr2 =>
                  obtain ⟨v, r3⟩ := pr2
                  simp only [hpV] at h
                  cases hsk3 : skipW r3 with
                  | nil => simp only [hsk3] at h; exact Option.noConfusion h
                  | cons e r4 =>
                    simp only [hsk3] at h
                    by_cases he : e = ','
                    · rw [if_pos he] at h
                      cases hpM : parseMembers f r4 with
                      | none => simp only [hpM] at h; exact Option.noConfusion h
                      | some pr3 =>
                        obtain ⟨ms2, r5⟩ := pr3
                        simp only [hpM] at h
                        injection h with hh
                        injection hh with hv hr
                        subst hr
                        have s1 : r5 <:+ r3 := suffix_through_skipW hsk3 (ihM _ _ _ hpM)
                        have s2 : r5 <:+ r2 := s1.trans (ihV _ _ _ hpV)
                        have s3 : r5 <:+ r1 := suffix_through_skipW hsk2 s2
                        have s4 : r5 <:+ t := s3.trans (parseStrBody_suffix f _ _ _ hp)
                        exact suffix_through_skipW hsk s4
                    · rw [if_neg he] at h
                      by_cases he2 : e = '}'
                      · rw [if_pos he2] at h
                        injection h with hh
                        injection hh with hv hr
                        subst hr
                        have s1 : r4 <:+ r3 := suffix_through_skipW hsk3 (List.suffix_refl _)
                        have s2 : r4 <:+ r2 := s1.trans (ihV _ _ _ hpV)
                        have s3 : r4 <:+ r1 := suffix_through_skipW hsk2 s2
                        have s4 : r4 <:+ t := s3.trans (parseStrBody_suffix f _ _ _ hp)
                        exact suffix_through_skipW hsk s4
                      · rw [if_neg he2] at h
                        exact Option.noConfusion h
              · rw [if_neg hd] at h
                exact Option.noConfusion h
        · rw [if_neg hc] at h
          exact Option.noConfusion h
    · intro l vs r h
      simp only [parseElems] at h
      cases hpV : parseV f l with
      | none => simp only [hpV] at h; exact Option.noConfusion h
      | some pr =>
        obtain ⟨v, r1⟩ := pr
        simp only [hpV] at h
        cases hsk : skipW r1 with
        | nil => simp only [hsk] at h; exact Option.noConfusion h
        | cons d r2 =>
          simp only [hsk] at h
          by_cases hd : d = ','
          · rw [if_pos hd] at h
            cases hpE : parseElems f r2 with
            | none => simp only [hpE] at h; exact Option.noConfusion h
            | some pr2 =>
              obtain ⟨vs2, r3⟩ := pr2
              simp only [hpE] at h
              injection h with hh
              injection hh with hv hr
              subst hr
              have s1 : r3 <:+ r1 := suffix_through_skipW hsk (ihE _ _ _ hpE)
              exact s1.trans (ihV _ _ _ hpV)
          · rw [if_neg hd] at h
            by_cases hd2 : d = ']'
            · rw [if_pos hd2] at h
              injection h with hh
              injection hh with hv hr
              subst hr
              have s1 : r2 <:+ r1 := suffix_through_skipW hsk (List.suffix_refl _)
              exact s1.trans (ihV _ _ _ hpV)
            · rw [if_neg hd2] at h
              exact Option.noConfusion h

theorem parseMembers_close (f : Nat) :
    ∀ l ms r, parseMembers f l = some (ms, r) → ∃ q, l = q ++ '}' :: r := by
  induction f with
  | zero => intro l ms r h; simp [parseMembers] at h
  | succ f ih =>
    intro l ms r h
    simp only [parseMembers] at h
    cases hsk : skipW l with
    | nil => simp only [hsk] at h; exact Option.noConfusion h
    | cons c t =>
      simp only [hsk] at h
      by_cases hc : c = '"'
      · rw [if_pos hc] at h
        have hl : l = l.takeWhile wsChar ++ (c :: t) := by
          rw [← hsk]; exact (List.takeWhile_append_dropWhile wsChar l).symm
        cases hp : parseStrBody f t with
        | none => simp only [hp] at h; exact Option.noConfusion h
        | some pr =>
          obtain ⟨key, r1⟩ := pr
          simp only [hp] at h
          obtain ⟨p1, hp1⟩ := parseStrBody_suffix f t key r1 hp
          cases hsk2 : skipW r1 with
          | nil => simp only [hsk2] at h; exact Option.noConfusion h
          | cons d r2 =>
            simp only [hsk2] at h
            by_cases hd : d = ':'
            · rw [if_pos hd] at h
              have hr1 : r1 = r1.takeWhile wsChar ++ (d :: r2) := by
                rw [← hsk2]; exact (List.takeWhile_append_dropWhile wsChar r1).symm
              cases hpV : parseV f r2 with
              | none => simp only [hpV] at h; exact Option.noConfusion h
              | some pr2 =>
                obtain ⟨v, r3⟩ := pr2
                simp only [hpV] at h
                obtain ⟨p2, hp2⟩ := (parse_suffix f).1 r2 v r3 hpV
                cases hsk3 : skipW r3 with
                | nil => simp only [hsk3] at h; exact Option.noConfusion h
                | cons e r4 =>
                  simp only [hsk3] at h
                  have hr3 : r3 = r3.takeWhile wsChar ++ (e :: r4) := by
                    rw [← hsk3]; exact (List.takeWhile_append_dropWhile wsChar r3).symm
                  by_cases he : e = ','
                  · rw [if_pos he] at h
                    cases hpM : parseMembers f r4 with
                    | none => simp only [hpM] at h; exact Option.noConfusion h
                    | some pr3 =>
                      obtain ⟨ms2, r5⟩ := pr3
                      simp only [hpM] at h
                      injection h with hh
                      injection hh with hv hr
                      subst hr
                      obtain ⟨q2, hq2⟩ := ih r4 ms2 r5 hpM
                      refine ⟨l.takeWhile wsChar ++ c :: (p1 ++ (r1.takeWhile wsChar ++
                        d :: (p2 ++ (r3.takeWhile wsChar ++ e :: q2)))), ?_⟩
                      conv_lhs => rw [hl, ← hp1, hr1, ← hp2, hr3, hq2]
                      simp [List.append_assoc]
                  · rw [if_neg he] at h
                    by_cases he2 : e = '}'
                    · rw [if_pos he2] at h
                      injection h with hh
                      injection hh with hv hr
                      subst hr
                      subst he2
                      refine ⟨l.takeWhile wsChar ++ c :: (p1 ++ (r1.takeWhile wsChar ++
                        d :: (p2 ++ r3.takeWhile wsChar))), ?_⟩
                      conv_lhs => rw [hl, ← hp1, hr1, ← hp2, hr3]
                      simp [List.append_assoc]
                    · rw [if_neg he2] at h
                      exact Option.noConfusion h
            · rw [if_neg hd] at h
              exact Option.noConfusion h
      · rw [if_neg hc] at h
        exact Option.noConfusion h

theorem parseV_obj_shape (f : Nat) (l : List Char) (kvs : List (String × Json)) (r : List Char)
    (h : parseV f l = some (Json.obj kvs, r)) :
    (∃ t, skipW l = '{' :: t) ∧ (∃ q, l = q ++ '}' :: r) := by
  cases f with
  | zero => simp [parseV] at h
  | succ f =>
    simp only [parseV] at h
    cases hsk : skipW l with
    | nil => simp only [hsk] at h; exact Option.noConfusion h
    | cons c t =>
      simp only [hsk] at h
      by_cases h1 : c = '{'
      · subst h1
        refine ⟨⟨t, rfl⟩, ?_⟩
        rw [if_pos rfl] at h
        have hl : l = l.takeWhile wsChar ++ ('{' :: t) := by
          rw [← hsk]; exact (List.takeWhile_append_dropWhile wsChar l).symm
        cases hsk2 : skipW t with
        | nil =>
          simp only [hsk2] at h
          cases hp : parseMembers f t with
          | none => simp only [hp] at h; exact Option.noConfusion h
          | some pr =>
            obtain ⟨ms, r2⟩ := pr
            simp only [hp] at h
            injection h with hh
            injection hh with hv hr
            subst hr
            obtain ⟨q2, hq2⟩ := parseMembers_close f t ms r2 hp
            refine ⟨l.takeWhile wsChar ++ '{' :: q2, ?_⟩
            conv_lhs => rw [hl, hq2]
            simp [List.append_assoc]
        | cons d r0 =>
          simp only [hsk2] at h
          by_cases h2 : d = '}'
          · subst h2
            rw [if_pos rfl] at h
            injection h with hh
            injection hh with hv hr
            subst hr
            have ht : t = t.takeWhile wsChar ++ ('}' :: r0) := by
              rw [← hsk2]; exact (List.takeWhile_append_dropWhile wsChar t).symm
            refine ⟨l.takeWhile wsChar ++ '{' :: t.takeWhile wsChar, ?_⟩
            conv_lhs => rw [hl, ht]
            simp [List.append_assoc]
          · rw [if_neg h2] at h
            cases hp : parseMembers f t with
            | none => simp only [hp] at h; exact Option.noConfusion h
            | some pr =>
              obtain ⟨ms, r2⟩ := pr
              simp only [hp] at h
              injection h with hh
              injection hh with hv hr
              subst hr
              obtain ⟨q2, hq2⟩ := parseMembers_close f t ms r2 hp
              refine ⟨l.takeWhile wsChar ++ '{' :: q2, ?_⟩
              conv_lhs => rw [hl, hq2]
              simp [List.append_assoc]
      · rw [if_neg h1] at h
        exfalso
        repeat' split at h
        all_goals
          first
          | exact Option.noConfusion h
          | · injection h with hh
              injection hh with hv hr
              exact Json.noConfusion hv

theorem strExt {a b : String} (h : a.data = b.data) : a = b := by
  cases a; cases b; cases h; rfl

theorem dropWhile_head_false {p : Char → Bool} :
    ∀ (l : List Char) (c : Char) (t : List Char), l.dropWhile p = c :: t → p c = false := by
  intro l
  induction l with
  | nil => intro c t h; exact absurd h (by simp)
  | cons a l ih =>
    intro c t h
    by_cases hp : p a = true
    · rw [List.dropWhile_cons, if_pos hp] at h
      exact ih _ _ h
    · rw [List.dropWhile_cons, if_neg hp] at h
      injection h with h1 h2
      subst h1
      exact Bool.eq_false_iff.mpr hp

theorem stripChars_head_false : ∀ l c t, stripChars l = c :: t → wsChar c = false := by
  intro l c t h
  unfold stripChars dropRightWhileW at h
  have hsuf : (l.dropWhile wsChar).reverse.dropWhile wsChar <:+ (l.dropWhile wsChar).reverse :=
    List.dropWhile_suffix wsChar
  obtain ⟨p, hp⟩ := hsuf
  have hrev : l.dropWhile wsChar =
      ((l.dropWhile wsChar).reverse.dropWhile wsChar).reverse ++ p.reverse := by
    have h2 := congrArg List.reverse hp
    simpa [List.reverse_append] using h2.symm
  rw [h] at hrev
  exact dropWhile_head_false l c _ hrev

theorem skipW_eq_self_of_head {l : List Char} {c : Char}
    (hl : l.head? = some c) (hc : wsChar c = false) : l.dropWhile wsChar = l := by
  cases l with
  | nil => exact absurd hl (by simp)
  | cons a t =>
    injection hl with ha
    subst ha
    simp [List.dropWhile_cons, hc]

theorem dropRightWhileW_eq_self_of_last {l : List Char} {c : Char}
    (hl : l.reverse.head? = some c) (hc : wsChar c = false) : dropRightWhileW l = l := by
  unfold dropRightWhileW
  rw [skipW_eq_self_of_head hl hc, List.reverse_reverse]

theorem stripChars_eq_self {l : List Char} {c c' : Char}
    (h1 : l.head? = some c) (hc : wsChar c = false)
    (h2 : l.reverse.head? = some c') (hc' : wsChar c' = false) : stripChars l = l := by
  unfold stripChars
  rw [skipW_eq_self_of_head h1 hc]
  exact dropRightWhileW_eq_self_of_last h2 hc'

theorem parse_mk_strip (l : List Char) (hidem : stripChars l = l) :
    Json.parse ⟨l⟩ = (match parseV (l.length + 1) l with
      | some (v, rest) => if rest = [] then some v else none
      | none => none) := by
  show (match parseV ((stripChars l).length + 1) (stripChars l) with
      | some (v, rest) => if rest = [] then some v else none
      | none => none) = _
  rw [hidem]

/-- C6: wrapping a cleanly decoding JSON object text in the backtick fence
pair and normalizing yields the same Structured result as normalizing the
text directly. -/
theorem C6_fence_roundtrip (s : String) (kvs : List (String × Json))
    (h : Json.parse s = some (Json.obj kvs)) :
    normalizeResponse ("```json" ++ s ++ "```") = Payload.structured (Json.obj kvs) ∧
    normalizeResponse s = Payload.structured (Json.obj kvs) := by
  -- extract the successful parse run on the stripped text
  have hrun : parseV ((stripChars s.data).length + 1) (stripChars s.data) =
      some (Json.obj kvs, []) := by
    simp only [Json.parse] at h
    cases hp : parseV ((stripChars s.data).length + 1) (stripChars s.data) with
    | none => rw [hp] at h; exact Option.noConfusion h
    | some pr =>
      obtain ⟨v, rest⟩ := pr
      simp only [hp] at h
      by_cases hr : rest = []
      · subst hr
        rw [if_pos rfl] at h
        injection h with hv
        rw [hv]
      · rw [if_neg hr] at h
        exact Option.noConfusion h
  -- shape of the stripped text: starts with `{`, ends with `}`
  obtain ⟨⟨t0, ht0⟩, ⟨q0, hq0⟩⟩ := parseV_obj_shape _ _ _ _ hrun
  have hcons : stripChars s.data = '{' :: t0 := by
    cases hl0 : stripChars s.data with
    | nil => rw [hl0] at ht0; exact absurd ht0 (by simp [skipW])
    | cons a t2 =>
      have ha : wsChar a = false := stripChars_head_false s.data a t2 hl0
      rw [hl0] at ht0
      rw [show skipW (a :: t2) = a :: t2 from by simp [skipW, List.dropWhile_cons, ha]] at ht0
      exact ht0
  -- strip is the identity on the stripped text
  have hidem0 : stripChars (stripChars s.data) = stripChars s.data := by
    refine @stripChars_eq_self _ '{' '}' ?_ rfl ?_ rfl
    · rw [hcons]; rfl
    · rw [hq0]; simp [List.reverse_append]
  -- the cleaned direct text is the stripped text
  have hstarts : startsW (pyStrip s) "```json" = false := by
    show List.isPrefixOf ['`', '`', '`', 'j', 's', 'o', 'n'] (stripChars s.data) = false
    rw [hcons]
    simp [List.isPrefixOf]
  have hends : endsW (pyStrip s) "```" = false := by
    show List.isPrefixOf ['`', '`', '`'] (stripChars s.data).reverse = false
    rw [hq0, List.reverse_append]
    simp [List.isPrefixOf]
  have hclean : cleanResponse s = String.mk (stripChars s.data) := by
    simp only [cleanResponse, hstarts, hends, Bool.false_eq_true, if_false]
    show String.mk (stripChars (stripChars s.data)) = _
    rw [hidem0]
  -- the cleaned text parses back to the same object
  have hparse2 : Json.parse (String.mk (stripChars s.data)) = some (Json.obj kvs) := by
    rw [parse_mk_strip _ hidem0]
    simp [hrun]
  -- the fenced text: stripping is the identity on it
  have hfd : ("```json" ++ s ++ "```").data = "```json".data ++ s.data ++ "```".data := by
    rw [strDataAppend, strDataAppend]
  have hfstrip : stripChars ("```json".data ++ s.data ++ "```".data) =
      "```json".data ++ s.data ++ "```".data := by
    refine @stripChars_eq_self _ '`' '`' rfl rfl ?_ rfl
    rw [List.reverse_append]; rfl
  have hfstr : pyStrip ("```json" ++ s ++ "```") = "```json" ++ s ++ "```" := by
    apply strExt
    show stripChars ("```json" ++ s ++ "```").data = ("```json" ++ s ++ "```").data
    rw [hfd]
    exact hfstrip
  -- the fenced text carries both markers, which are stripped back off
  have hfstarts : startsW ("```json" ++ s ++ "```") "```json" = true := by
    show List.isPrefixOf ['`', '`', '`', 'j', 's', 'o', 'n'] ("```json" ++ s ++ "```").data = true
    rw [hfd]
    simp [List.isPrefixOf]
  have hfdrop : dropN ("```json" ++ s ++ "```") 7 = String.mk (s.data ++ ['`', '`', '`']) := by
    apply strExt
    show ("```json" ++ s ++ "```").data.drop 7 = s.data ++ ['`', '`', '`']
    rw [hfd]; rfl
  have hfends : endsW (String.mk (s.data ++ ['`', '`', '`'])) "```" = true := by
    show List.isPrefixOf ['`', '`', '`'] ((s.data ++ ['`', '`', '`']).reverse) = true
    rw [List.reverse_append]
    simp [List.isPrefixOf]
  have hfdropR : dropRightN (String.mk (s.data ++ ['`', '`', '`'])) 3 = String.mk s.data := by
    apply strExt
    show ((s.data ++ ['`', '`', '`']).reverse.drop 3).reverse = s.data
    rw [List.reverse_append]
    show s.data.reverse.reverse = s.data
    exact List.reverse_reverse s.data
  have hcleanF : cleanResponse ("```json" ++ s ++ "```") = String.mk (stripChars s.data) := by
    simp only [cleanResponse, hfstr, hfstarts, if_true, hfdrop, hfends, hfdropR,
      eq_self_iff_true]
    rfl
  constructor
  · simp only [normalizeResponse, hcleanF, hparse2]
  · simp only [normalizeResponse, hclean, hparse2]

/-- Witness for C6 at a concrete object text. -/
theorem C6_witness :
    normalizeResponse ("```json" ++ "\x7b\"a\": 1\x7d" ++ "```") =
      Payload.structured (Json.obj [("a", Json.num 1)]) ∧
    normalizeResponse "\x7b\"a\": 1\x7d" =
      Payload.structured (Json.obj [("a", Json.num 1)]) :=
  C6_fence_roundtrip "\x7b\"a\": 1\x7d" [("a", Json.num 1)] rfl
